import Mathlib

/-!
Shallow embedding of the HorseRacing repository (public/horse.js, public/ai.js,
public/raceLoop.js, public/playerControls.js, public/track.js) and proofs
about its specification claims.

Numeric JavaScript values are modelled as rationals; quantities that genuinely
need pi, square roots or trigonometry (the Ramanujan perimeter formula and the
oval parameterization) are modelled over the reals.  Where JavaScript division
or remainder by zero yields a non-finite value (NaN or Infinity) we model the
operation with an Option result (none = non-finite); see jsDiv and jsMod.
-/

namespace HorseRacing

/-! ## Data model and operations -/

/-- Per-tick control intent as produced by playerControls.js or ai.js:
`{forward: bool, boost: bool}`. -/
structure InputState where
  forward : Bool
  boost : Bool
deriving DecidableEq, Repr

/-- Core racer state and per-horse constants, mirroring the fields that
`PlayerHorse` (public/horse.js) reads or writes in `handleInput`,
`updatePosition` and `checkRaceCompletion`.  The rendering-only fields
(`x`, `y`, `angle`, `width`, `height`, `color`) are modelled separately in
`HorseFull`, since the core motion logic never reads them. -/
structure Horse where
  laneNumber : ℤ
  distance : ℚ
  speed : ℚ
  maxSpeed : ℚ
  boostMaxSpeed : ℚ
  acceleration : ℚ
  deceleration : ℚ
  stamina : ℚ
  maxStamina : ℚ
  staminaDrainRate : ℚ
  staminaRecoveryRate : ℚ
  finished : Bool
deriving DecidableEq, Repr

/-- Embedding of `PlayerHorse.handleInput` (public/horse.js lines 71-109),
statement by statement.  Note that when `forward` is false and `boost` is
false the stamina-recovery block runs twice: once inside the else branch
(lines 97-101) and once in the trailing block (lines 104-108). -/
def Horse.handleInput (h : Horse) (deltaTime : ℚ) (inputState : InputState) : Horse :=
  let h1 :=
    if inputState.forward then
      -- currentMaxSpeed is chosen from the boost state and the pre-drain stamina
      let currentMaxSpeed :=
        if inputState.boost ∧ h.stamina > 0 then h.boostMaxSpeed else h.maxSpeed
      let speed1 := h.speed + h.acceleration * deltaTime
      let speed2 := if speed1 > currentMaxSpeed then currentMaxSpeed else speed1
      if inputState.boost ∧ h.stamina > 0 then
        let st1 := h.stamina - h.staminaDrainRate * deltaTime
        { h with speed := speed2, stamina := if st1 < 0 then 0 else st1 }
      else
        { h with speed := speed2 }
    else
      let speed1 := h.speed - h.deceleration * deltaTime
      let speed2 := if speed1 < 0 then 0 else speed1
      if inputState.boost = false then
        let st1 := h.stamina + h.staminaRecoveryRate * deltaTime
        { h with speed := speed2,
                 stamina := if st1 > h.maxStamina then h.maxStamina else st1 }
      else
        { h with speed := speed2 }
  -- trailing block: recover stamina when not boosting (even when accelerating)
  if inputState.boost = false then
    let st1 := h1.stamina + h1.staminaRecoveryRate * deltaTime
    { h1 with stamina := if st1 > h1.maxStamina then h1.maxStamina else st1 }
  else
    h1

/-- Embedding of the distance part of `PlayerHorse.updatePosition`
(public/horse.js lines 111-120): `distance += speed * deltaTime`.  The
`x`, `y`, `angle` assignments are modelled in `HorseFull.update`. -/
def Horse.updatePos (h : Horse) (deltaTime : ℚ) : Horse :=
  { h with distance := h.distance + h.speed * deltaTime }

/-- Embedding of `PlayerHorse.checkRaceCompletion` (public/horse.js lines
122-127): sets `finished` when `distance >= track.totalLength`; there is no
else branch, so `finished` is never cleared here. -/
def Horse.checkRaceCompletion (totalLength : ℚ) (h : Horse) : Horse :=
  if h.distance ≥ totalLength then { h with finished := true } else h

/-- Embedding of `PlayerHorse.update` (public/horse.js lines 58-69): early
return when already finished, otherwise `handleInput`, then `updatePosition`,
then `checkRaceCompletion`.  The track length is passed as a parameter. -/
def Horse.update (totalLength : ℚ) (h : Horse) (deltaTime : ℚ)
    (inputState : InputState) : Horse :=
  if h.finished then h
  else
    Horse.checkRaceCompletion totalLength
      ((h.handleInput deltaTime inputState).updatePos deltaTime)

/-- Constants of the `PlayerHorse` constructor (public/horse.js lines 4-39)
followed by `reset()`: lane stored verbatim without validation, distance 0,
speed 0, stamina at the maximum of 100, not finished. -/
def mkPlayerHorse (lane : ℤ) : Horse :=
  { laneNumber := lane
    distance := 0
    speed := 0
    maxSpeed := 500
    boostMaxSpeed := 700
    acceleration := 200
    deceleration := 300
    stamina := 100
    maxStamina := 100
    staminaDrainRate := 25
    staminaRecoveryRate := 10
    finished := false }

/-- Embedding of the core-state part of `PlayerHorse.reset` (public/horse.js
lines 41-56): distance 0, speed 0, stamina at maximum, not finished.  The
`x`, `y`, `angle` reads from `getTrackPosition(0, lane)` touch only the
rendering fields modelled in `HorseFull`. -/
def Horse.resetState (h : Horse) : Horse :=
  { h with distance := 0, speed := 0, stamina := h.maxStamina, finished := false }

/-! ## Track geometry (public/track.js) -/

/-- Embedding of `Track.calculateTrackLength` (public/track.js lines 37-43):
the Ramanujan ellipse-perimeter approximation
`pi * (a + b) * (1 + 3h / (10 + sqrt (4 - 3h)))` with
`h = (a - b)^2 / (a + b)^2`, written with `h` inlined. -/
noncomputable def ramanujanLength (a b : ℝ) : ℝ :=
  Real.pi * (a + b) *
    (1 + (3 * ((a - b) ^ 2 / (a + b) ^ 2)) /
      (10 + Real.sqrt (4 - 3 * ((a - b) ^ 2 / (a + b) ^ 2))))

/-- State of the `Track` object from src/public/track.js: canvas-derived
dimensions in rationals, the derived `totalLength` as a real number, and the
lane setup from `setupTrack`. -/
structure Track where
  canvasWidth : ℚ
  canvasHeight : ℚ
  centerX : ℚ
  centerY : ℚ
  outerRadiusX : ℚ
  outerRadiusY : ℚ
  trackWidth : ℚ
  innerRadiusX : ℚ
  innerRadiusY : ℚ
  totalLength : ℝ
  laneCount : ℕ
  laneSpacing : ℚ

/-- Embedding of the `Track` constructor of src/public/track.js (lines 4-35)
followed by `setupTrack` (lines 45-49): outer radii are 0.4 and 0.35 of the
canvas, track width 120, `totalLength` from the Ramanujan formula on the
centerline radii (outer minus half width), 6 lanes with spacing
`trackWidth / laneCount`. -/
noncomputable def mkTrack (w h : ℚ) : Track :=
  { canvasWidth := w
    canvasHeight := h
    centerX := w / 2
    centerY := h / 2
    outerRadiusX := w * (2/5)
    outerRadiusY := h * (7/20)
    trackWidth := 120
    innerRadiusX := w * (2/5) - 120
    innerRadiusY := h * (7/20) - 120
    totalLength := ramanujanLength ((w * (2/5) - 120/2 : ℚ) : ℝ) ((h * (7/20) - 120/2 : ℚ) : ℝ)
    laneCount := 6
    laneSpacing := 120 / 6 }

/-- Embedding of `Track.handleResize` of src/public/track.js (lines 51-59): it
reassigns the center and the four radii from the new canvas size but does NOT
recompute `totalLength` (nor the lane setup) — those fields keep their old
values, faithfully to the source. -/
def Track.handleResize (t : Track) (w h : ℚ) : Track :=
  { t with
    canvasWidth := w
    canvasHeight := h
    centerX := w / 2
    centerY := h / 2
    outerRadiusX := w * (2/5)
    outerRadiusY := h * (7/20)
    innerRadiusX := w * (2/5) - t.trackWidth
    innerRadiusY := h * (7/20) - t.trackWidth }

/-- Embedding of the `Track` constructor of the retro variant (the unnamed
source file that also begins `// public/track.js`): outer radii 0.45 and 0.30
of the canvas and track width 140; otherwise as `mkTrack`. -/
noncomputable def mkTrackRetro (w h : ℚ) : Track :=
  { canvasWidth := w
    canvasHeight := h
    centerX := w / 2
    centerY := h / 2
    outerRadiusX := w * (9/20)
    outerRadiusY := h * (3/10)
    trackWidth := 140
    innerRadiusX := w * (9/20) - 140
    innerRadiusY := h * (3/10) - 140
    totalLength := ramanujanLength ((w * (9/20) - 140/2 : ℚ) : ℝ) ((h * (3/10) - 140/2 : ℚ) : ℝ)
    laneCount := 6
    laneSpacing := 140 / 6 }

/-- Embedding of `Track.handleResize` of the retro variant (lines 65-80 of
that file): reassigns center and radii AND recomputes `totalLength` with
`calculateTrackLength` on the new radii, within the same call. -/
noncomputable def trackRetroHandleResize (t : Track) (w h : ℚ) : Track :=
  { t with
    canvasWidth := w
    canvasHeight := h
    centerX := w / 2
    centerY := h / 2
    outerRadiusX := w * (9/20)
    outerRadiusY := h * (3/10)
    innerRadiusX := w * (9/20) - t.trackWidth
    innerRadiusY := h * (3/10) - t.trackWidth
    totalLength := ramanujanLength ((w * (9/20) - t.trackWidth / 2 : ℚ) : ℝ)
      ((h * (3/10) - t.trackWidth / 2 : ℚ) : ℝ) }

/-! ## JavaScript division and remainder, with the zero-divisor case explicit -/

/-- Truncation toward zero, as JavaScript computes the quotient inside the
remainder operator. -/
def jsTrunc (x : ℚ) : ℤ := if 0 ≤ x then ⌊x⌋ else ⌈x⌉

/-- JavaScript division `a / b` over rationals: `none` models the non-finite
result (Infinity or NaN) produced when `b = 0`. -/
def jsDiv (a b : ℚ) : Option ℚ := if b = 0 then none else some (a / b)

/-- JavaScript remainder `a % b` over rationals: `a - b * trunc (a / b)` for
`b` non-zero, and `none` (modelling NaN) when `b = 0`. -/
def jsMod (a b : ℚ) : Option ℚ :=
  if b = 0 then none else some (a - b * (jsTrunc (a / b) : ℚ))

/-- Embedding of the `trackProgress` getter (public/horse.js lines 163-166):
`this.distance / this.track.totalLength`, with no guard on a zero track
length. -/
def trackProgress (distance totalLength : ℚ) : Option ℚ := jsDiv distance totalLength

/-- Embedding of the `normalizedDistance` computation at the top of
`Track.getTrackPosition` (src/public/track.js line 182):
`(distance % totalLength) / totalLength`, with no guard on a zero track
length. -/
def normalizedDistance (distance totalLength : ℚ) : Option ℚ :=
  (jsMod distance totalLength).bind fun m => jsDiv m totalLength

/-! ## Real-valued track parameterization -/

/-- Truncation toward zero on the reals (JavaScript quotient inside `%`). -/
noncomputable def jsTruncR (x : ℝ) : ℤ := if 0 ≤ x then ⌊x⌋ else ⌈x⌉

/-- JavaScript remainder `a % b` over the reals, total version:
`a - b * trunc (a / b)`.  Faithful for `b` non-zero; at `b = 0` JavaScript
yields NaN while this total expression yields `a` (Lean division by zero is
zero) — the zero-length case is modelled explicitly by `jsMod` above. -/
noncomputable def jsModR (a b : ℝ) : ℝ := a - b * (jsTruncR (a / b) : ℝ)

/-- Embedding of `Track.getTrackPosition` (src/public/track.js lines
180-194): angle is `normalizedDistance * 2 * pi + pi / 2`, the lane radius is
`innerRadius + laneNumber * laneSpacing` per axis, and the result is
`(x, y, angle)` with `x = centerX + radiusX * cos angle` and
`y = centerY + radiusY * sin angle`.  The returned heading is the third
component. -/
noncomputable def Track.getTrackPosition (t : Track) (distance : ℝ) (laneNumber : ℤ) :
    ℝ × ℝ × ℝ :=
  let normalized := jsModR distance t.totalLength / t.totalLength
  let angle := normalized * 2 * Real.pi + Real.pi / 2
  let radiusX := (t.innerRadiusX : ℝ) + (laneNumber : ℝ) * (t.laneSpacing : ℝ)
  let radiusY := (t.innerRadiusY : ℝ) + (laneNumber : ℝ) * (t.laneSpacing : ℝ)
  ((t.centerX : ℝ) + radiusX * Real.cos angle, (t.centerY : ℝ) + radiusY * Real.sin angle, angle)

/-- Derivative (tangent) vector of the parametric oval
`θ ↦ (cx + radiusX * cos θ, cy + radiusY * sin θ)`; see
`tangentVector_isDeriv` for the proof that it is the curve derivative. -/
noncomputable def tangentVector (radiusX radiusY θ : ℝ) : ℝ × ℝ :=
  (-(radiusX * Real.sin θ), radiusY * Real.cos θ)

/-- Formalization, following the words of the specification (not the source),
of the claim that the heading returned by `getTrackPosition` is the tangent
angle of the parametric oval at that point: the direction vector of the
returned heading is a positive multiple of the tangent vector at the returned
parameter, for the lane radii used inside `getTrackPosition`. -/
def specHeadingIsTangentAngle (t : Track) (distance : ℝ) (lane : ℤ) : Prop :=
  ∃ r : ℝ, 0 < r ∧
    tangentVector ((t.innerRadiusX : ℝ) + (lane : ℝ) * (t.laneSpacing : ℝ))
        ((t.innerRadiusY : ℝ) + (lane : ℝ) * (t.laneSpacing : ℝ))
        (t.getTrackPosition distance lane).2.2 =
      (r * Real.cos (t.getTrackPosition distance lane).2.2,
       r * Real.sin (t.getTrackPosition distance lane).2.2)

/-! ## Lane assignment (public/ai.js) -/

/-- Lane picked for AI horse number `i` in `AIManager.createAIHorses`
(public/ai.js lines 588-591): `lane = i + 1`, then skip the player lane 3 by
incrementing when `lane >= 3`. -/
def aiLane (i : ℕ) : ℕ :=
  let lane := i + 1
  if lane ≥ 3 then lane + 1 else lane

/-- Lanes assigned to the `count` AI horses created by
`AIManager.createAIHorses` (public/ai.js lines 585-606). -/
def aiLanes (count : ℕ) : List ℕ := (List.range count).map aiLane

/-! ## Placement computation (public/raceLoop.js RACING branch) -/

/-- Descending-progress comparison used by the placement sort, on entries
`(original index, progress)`: the comparator `(a, b) => b.progress - a.progress`
orders by larger progress first. -/
def progGE (x y : ℕ × ℚ) : Prop := y.2 ≤ x.2

instance : DecidableRel progGE := fun x y => inferInstanceAs (Decidable (y.2 ≤ x.2))

instance : IsTotal (ℕ × ℚ) progGE := ⟨fun x y => le_total y.2 x.2⟩

instance : IsTrans (ℕ × ℚ) progGE := ⟨fun _ _ _ hxy hyz => le_trans hyz hxy⟩

/-- Embedding of the placement computation in `RaceGame.update`
(public/raceLoop.js lines 327-341): map each horse to an entry carrying its
identity (original index; the name and color presentation fields are dropped)
and its progress, sort descending by progress, then attach
`place = position + 1`.  The JavaScript engine sort is modelled by insertion
sort, which produces the same result for every list up to the order of ties
(no claim here depends on tie order; the specification itself flags the tie
rule as unspecified). -/
def computePlacements (progresses : List ℚ) : List (ℕ × ℚ × ℕ) :=
  let entries := progresses.enum
  let sorted := entries.insertionSort progGE
  sorted.enum.map fun e => (e.2.1, e.2.2, e.1 + 1)

/-! ## AI horses and the race state machine (public/ai.js, public/raceLoop.js) -/

/-- State of `AIHorse` (public/ai.js lines 460-490): the inherited
`PlayerHorse` fields plus the AI profile constants drawn at creation
(difficulty, boost probability and duration, strategic boost points, stamina
conservation threshold) and the per-race mutable timers (boost timer, boosting
flag, used-strategic-boost flags). -/
structure AIHorse extends Horse where
  difficulty : ℚ
  boostProbability : ℚ
  boostDuration : ℚ
  boostTimer : ℚ
  isBoosting : Bool
  strategicBoostPoints : ℚ × ℚ
  usedStrategicBoosts : Bool × Bool
  conserveStaminaThreshold : ℚ
deriving DecidableEq, Repr

/-- Embedding of `AIHorse.reset` (public/ai.js lines 556-561):
`super.reset()` on the core state, then clear `isBoosting`, `boostTimer` and
the used-strategic-boost flags.  The profile constants are not assigned. -/
def AIHorse.reset (a : AIHorse) : AIHorse :=
  { a with toHorse := a.toHorse.resetState, isBoosting := false, boostTimer := 0,
           usedStrategicBoosts := (false, false) }

/-- The profile constants of an AI horse that are set once in the constructor
and never reassigned: maxSpeed, boostMaxSpeed, acceleration, boostProbability,
boostDuration, strategicBoostPoints, conserveStaminaThreshold. -/
def AIHorse.profile (a : AIHorse) : ℚ × ℚ × ℚ × ℚ × ℚ × (ℚ × ℚ) × ℚ :=
  (a.maxSpeed, a.boostMaxSpeed, a.acceleration, a.boostProbability, a.boostDuration,
    a.strategicBoostPoints, a.conserveStaminaThreshold)

/-- The GAME_STATE values of public/raceLoop.js lines 198-204. -/
inductive GameState where
  | loading
  | menu
  | countdown
  | racing
  | finished
deriving DecidableEq, Repr

/-- State of `RaceGame` (public/raceLoop.js) restricted to the fields touched
by the FINISHED-state transition and `reset`: the state machine value, the
countdown timer, the frozen placement list, the results-screen visibility, the
player horse and the AI horses.  The track reference is modelled separately by
the `Track` theorems (its `handleResize` call in `reset` receives the
unchanged canvas). -/
structure RaceGame where
  gameState : GameState
  countdownTimer : ℚ
  finalPlacements : List (ℕ × ℚ × ℕ)
  resultsVisible : Bool
  playerHorse : Horse
  aiHorses : List AIHorse
deriving DecidableEq, Repr

/-- Embedding of `RaceGame.reset` (public/raceLoop.js lines 253-264): reset
the player horse and every AI horse, set the game state to MENU, restore the
countdown timer to the 3-second constant, clear the placement list and hide
the results screen. -/
def RaceGame.reset (g : RaceGame) : RaceGame :=
  { g with gameState := GameState.menu, countdownTimer := 3, finalPlacements := [],
           resultsVisible := false, playerHorse := g.playerHorse.resetState,
           aiHorses := g.aiHorses.map AIHorse.reset }

/-- Embedding of the GAME_STATE.FINISHED case of `RaceGame.update`
(public/raceLoop.js lines 349-356): on a forward intent while the results
screen is visible, run `reset()` and then set the state to COUNTDOWN.  The
enclosing switch dispatches here only when the game state is FINISHED. -/
def RaceGame.updateFinishedState (g : RaceGame) (forward : Bool) : RaceGame :=
  if forward ∧ g.resultsVisible then { g.reset with gameState := GameState.countdown } else g

/-! ## Full racer state including rendering fields -/

/-- Racer state including the rendering fields `x`, `y`, `angle` that
`updatePosition` and `reset` assign from `getTrackPosition`. -/
structure HorseFull extends Horse where
  x : ℝ
  y : ℝ
  angle : ℝ

open Classical in
/-- Embedding of the whole of `PlayerHorse.update` (public/horse.js lines
58-69) including `updatePosition`: early return when finished; otherwise
`handleInput`, distance integration, position update from
`getTrackPosition(distance, laneNumber)`, and the finish check against the
real-valued track length. -/
noncomputable def HorseFull.update (t : Track) (h : HorseFull) (deltaTime : ℚ)
    (inputState : InputState) : HorseFull :=
  if h.finished then h
  else
    let h1 := h.toHorse.handleInput deltaTime inputState
    let h2 := h1.updatePos deltaTime
    let pos := t.getTrackPosition (h2.distance : ℝ) h.laneNumber
    let h3 := if (h2.distance : ℝ) ≥ t.totalLength then { h2 with finished := true } else h2
    { toHorse := h3, x := pos.1, y := pos.2.1, angle := pos.2.2 }

/-! ## Concrete fixtures used by the witnesses -/

/-- Concrete AI horse in mid-race-finished condition, used by witnesses. -/
def sampleAIHorse : AIHorse :=
  { toHorse := { mkPlayerHorse 1 with
      distance := 900
      speed := 250
      stamina := 10
      finished := true }
    difficulty := 1
    boostProbability := 1/50
    boostDuration := 2
    boostTimer := 1
    isBoosting := true
    strategicBoostPoints := (1/3, 3/4)
    usedStrategicBoosts := (true, false)
    conserveStaminaThreshold := 35 }

/-- Concrete finished game showing the results screen, used by witnesses. -/
def sampleFinishedGame : RaceGame :=
  { gameState := GameState.finished
    countdownTimer := 0
    finalPlacements := [(0, 1, 1)]
    resultsVisible := true
    playerHorse := { mkPlayerHorse 3 with
      distance := 1200
      speed := 300
      stamina := 40
      finished := true }
    aiHorses := [sampleAIHorse] }

/-- Concrete finished racer with rendering fields, used by witnesses. -/
def sampleFinishedHorseFull : HorseFull :=
  { toHorse := { mkPlayerHorse 3 with finished := true }
    x := 0
    y := 0
    angle := 0 }

/-! ## Helper lemmas about the motion model -/

lemma clampMax_eq_min (a b : ℚ) : (if a > b then b else a) = min b a := by
  split_ifs with hab
  · exact (min_eq_left hab.le).symm
  · exact (min_eq_right (not_lt.mp hab)).symm

lemma handleInput_maxStamina (h : Horse) (dt : ℚ) (i : InputState) :
    (h.handleInput dt i).maxStamina = h.maxStamina := by
  unfold Horse.handleInput
  dsimp only
  split_ifs <;> rfl

lemma handleInput_finished (h : Horse) (dt : ℚ) (i : InputState) :
    (h.handleInput dt i).finished = h.finished := by
  unfold Horse.handleInput
  dsimp only
  split_ifs <;> rfl

lemma updatePos_stamina (h : Horse) (dt : ℚ) : (h.updatePos dt).stamina = h.stamina := rfl

lemma updatePos_maxStamina (h : Horse) (dt : ℚ) :
    (h.updatePos dt).maxStamina = h.maxStamina := rfl

lemma updatePos_speed (h : Horse) (dt : ℚ) : (h.updatePos dt).speed = h.speed := rfl

lemma updatePos_finished (h : Horse) (dt : ℚ) : (h.updatePos dt).finished = h.finished := rfl

lemma checkRaceCompletion_stamina (L : ℚ) (h : Horse) :
    (Horse.checkRaceCompletion L h).stamina = h.stamina := by
  unfold Horse.checkRaceCompletion; split_ifs <;> rfl

lemma checkRaceCompletion_speed (L : ℚ) (h : Horse) :
    (Horse.checkRaceCompletion L h).speed = h.speed := by
  unfold Horse.checkRaceCompletion; split_ifs <;> rfl

lemma checkRaceCompletion_maxStamina (L : ℚ) (h : Horse) :
    (Horse.checkRaceCompletion L h).maxStamina = h.maxStamina := by
  unfold Horse.checkRaceCompletion; split_ifs <;> rfl

lemma checkRaceCompletion_distance (L : ℚ) (h : Horse) :
    (Horse.checkRaceCompletion L h).distance = h.distance := by
  unfold Horse.checkRaceCompletion; split_ifs <;> rfl

lemma handleInput_bounds (h : Horse) (dt : ℚ) (i : InputState)
    (hsp : 0 ≤ h.speed) (hst0 : 0 ≤ h.stamina) (hst1 : h.stamina ≤ h.maxStamina)
    (hdt : 0 ≤ dt) (hacc : 0 ≤ h.acceleration) (hdec : 0 ≤ h.deceleration)
    (hdrain : 0 ≤ h.staminaDrainRate) (hrec : 0 ≤ h.staminaRecoveryRate)
    (hmax : 0 ≤ h.maxSpeed) (hbmax : 0 ≤ h.boostMaxSpeed) :
    0 ≤ (h.handleInput dt i).speed ∧ 0 ≤ (h.handleInput dt i).stamina ∧
      (h.handleInput dt i).stamina ≤ h.maxStamina := by
  have hacd := mul_nonneg hacc hdt
  have hded := mul_nonneg hdec hdt
  have hdrd := mul_nonneg hdrain hdt
  have hred := mul_nonneg hrec hdt
  unfold Horse.handleInput
  dsimp only
  split_ifs <;> (try dsimp only at *) <;> refine ⟨?_, ?_, ?_⟩ <;> linarith

/-! ## Helper lemmas about the track geometry -/

lemma ramanujanLength_bounds (a b : ℝ) (ha : 0 < a) (hb : 0 < b) :
    Real.pi * (a + b) ≤ ramanujanLength a b ∧
      ramanujanLength a b ≤ Real.pi * (a + b) * (13 / 10) := by
  have hab : (0:ℝ) < a + b := by linarith
  have hab2 : (0:ℝ) < (a + b) ^ 2 := by positivity
  set hq : ℝ := (a - b) ^ 2 / (a + b) ^ 2 with hhq
  have hq0 : 0 ≤ hq := by positivity
  have hq1 : hq ≤ 1 := by
    rw [hhq, div_le_one hab2]
    nlinarith
  have hs0 : 0 ≤ Real.sqrt (4 - 3 * hq) := Real.sqrt_nonneg _
  have hden : (0:ℝ) < 10 + Real.sqrt (4 - 3 * hq) := by linarith
  have hfrac0 : 0 ≤ 3 * hq / (10 + Real.sqrt (4 - 3 * hq)) := by positivity
  have hfrac1 : 3 * hq / (10 + Real.sqrt (4 - 3 * hq)) ≤ 3 / 10 := by
    rw [div_le_div_iff₀ hden (by norm_num)]
    nlinarith
  have hpi := Real.pi_pos
  have hfact : ramanujanLength a b =
      Real.pi * (a + b) * (1 + 3 * hq / (10 + Real.sqrt (4 - 3 * hq))) := rfl
  constructor
  · rw [hfact]
    nlinarith [mul_pos hpi hab]
  · rw [hfact]
    nlinarith [mul_pos hpi hab]

lemma ramanujanLength_pos (a b : ℝ) (ha : 0 < a) (hb : 0 < b) :
    0 < ramanujanLength a b := by
  have h1 := (ramanujanLength_bounds a b ha hb).1
  have := Real.pi_pos
  nlinarith

/-- The tangent vector of the parametric oval really is the derivative of each
coordinate of the curve used by `getTrackPosition`. -/
lemma tangentVector_isDeriv (cx cy rX rY θ : ℝ) :
    HasDerivAt (fun s => cx + rX * Real.cos s) (tangentVector rX rY θ).1 θ ∧
    HasDerivAt (fun s => cy + rY * Real.sin s) (tangentVector rX rY θ).2 θ := by
  constructor
  · simpa [tangentVector, mul_comm, mul_neg] using
      ((Real.hasDerivAt_cos θ).const_mul rX).const_add cx
  · simpa [tangentVector, mul_comm] using
      ((Real.hasDerivAt_sin θ).const_mul rY).const_add cy

lemma getTrackPosition_angle_zero (t : Track) (lane : ℤ) :
    (t.getTrackPosition 0 lane).2.2 = Real.pi / 2 := by
  simp [Track.getTrackPosition, jsModR, jsTruncR, zero_div]

/-! ## Claim theorems -/

/-- C1: for every racer state with `speed >= 0` and `0 <= stamina <= maxStamina`,
every control intent, and every non-negative `dt`, one motion step
(`PlayerHorse.update`, which runs `handleInput` with its in-step clamps) never
produces `speed < 0`, `stamina < 0`, or `stamina > maxStamina`.  The per-horse
rate and limit constants are quantified over all non-negative values, which
covers both the fixed player constants and the randomized AI constants. -/
theorem motion_step_preserves_bounds (L : ℚ) (h : Horse) (i : InputState) (dt : ℚ)
    (hsp : 0 ≤ h.speed) (hst0 : 0 ≤ h.stamina) (hst1 : h.stamina ≤ h.maxStamina)
    (hdt : 0 ≤ dt) (hacc : 0 ≤ h.acceleration) (hdec : 0 ≤ h.deceleration)
    (hdrain : 0 ≤ h.staminaDrainRate) (hrec : 0 ≤ h.staminaRecoveryRate)
    (hmax : 0 ≤ h.maxSpeed) (hbmax : 0 ≤ h.boostMaxSpeed) :
    0 ≤ (h.update L dt i).speed ∧ 0 ≤ (h.update L dt i).stamina ∧
      (h.update L dt i).stamina ≤ (h.update L dt i).maxStamina := by
  unfold Horse.update
  split_ifs with hf
  · exact ⟨hsp, hst0, hst1⟩
  · have hb := handleInput_bounds h dt i hsp hst0 hst1 hdt hacc hdec hdrain hrec hmax hbmax
    have hm := handleInput_maxStamina h dt i
    rw [checkRaceCompletion_speed, checkRaceCompletion_stamina, checkRaceCompletion_maxStamina,
        updatePos_speed, updatePos_stamina, updatePos_maxStamina]
    exact ⟨hb.1, hb.2.1, hm ▸ hb.2.2⟩

/-- C1 witness: the bounds hold after one concrete boosted step of the player
horse with `dt = 1/10`. -/
theorem motion_step_preserves_bounds_witness :
    0 ≤ ((mkPlayerHorse 3).update 1000 (1/10) { forward := true, boost := true }).speed ∧
      0 ≤ ((mkPlayerHorse 3).update 1000 (1/10) { forward := true, boost := true }).stamina ∧
      ((mkPlayerHorse 3).update 1000 (1/10) { forward := true, boost := true }).stamina ≤
        ((mkPlayerHorse 3).update 1000 (1/10) { forward := true, boost := true }).maxStamina :=
  motion_step_preserves_bounds 1000 (mkPlayerHorse 3) { forward := true, boost := true } (1/10)
    (by norm_num [mkPlayerHorse]) (by norm_num [mkPlayerHorse]) (by norm_num [mkPlayerHorse])
    (by norm_num) (by norm_num [mkPlayerHorse]) (by norm_num [mkPlayerHorse])
    (by norm_num [mkPlayerHorse]) (by norm_num [mkPlayerHorse]) (by norm_num [mkPlayerHorse])
    (by norm_num [mkPlayerHorse])

/-- C2 counterexample: with `forward = false`, `boost = false`, `dt = 1`,
stamina 50 and recovery rate 10, the step yields stamina 70, not
`min maxStamina (stamina + staminaRecoveryRate * dt) = 60`: the recovery block
runs twice in `handleInput` (once in the not-forward branch, once in the
trailing block), so the claimed formula fails when `forward` is false. -/
theorem stamina_regen_claim_counterexample :
    ¬ ((({ mkPlayerHorse 3 with stamina := 50 } : Horse).update 1000 1
          { forward := false, boost := false }).stamina
        = min ({ mkPlayerHorse 3 with stamina := 50 } : Horse).maxStamina
            (({ mkPlayerHorse 3 with stamina := 50 } : Horse).stamina
              + ({ mkPlayerHorse 3 with stamina := 50 } : Horse).staminaRecoveryRate * 1)) := by
  norm_num [Horse.update, Horse.handleInput, Horse.updatePos, Horse.checkRaceCompletion,
    mkPlayerHorse, min_def]

/-- C2 amended: for a non-finished racer stepped with `boost = false`, stamina
regenerates by exactly `staminaRecoveryRate * dt` (capped at `maxStamina`) when
`forward` is true, but when `forward` is false the recovery is applied twice,
each application capped at `maxStamina`. -/
theorem stamina_regen_amended (L : ℚ) (h : Horse) (f : Bool) (dt : ℚ)
    (hf : h.finished = false) :
    (h.update L dt { forward := f, boost := false }).stamina =
      if f then min h.maxStamina (h.stamina + h.staminaRecoveryRate * dt)
      else min h.maxStamina
        (min h.maxStamina (h.stamina + h.staminaRecoveryRate * dt)
          + h.staminaRecoveryRate * dt) := by
  unfold Horse.update
  rw [if_neg (by simp [hf])]
  rw [checkRaceCompletion_stamina, updatePos_stamina]
  unfold Horse.handleInput
  cases f <;>
    simp only [Bool.false_eq_true, false_and, if_false, if_true, min_def, ite_true, ite_false,
      Bool.true_eq_false, and_false] <;>
    split_ifs <;> (try dsimp only at *) <;> linarith

/-- C2 amended witness: the double recovery evaluated on the concrete state of
the counterexample (stamina 50, `dt = 1`) gives `min 100 (min 100 60 + 10)`. -/
theorem stamina_regen_amended_witness :
    (({ mkPlayerHorse 3 with stamina := 50 } : Horse).update 1000 1
        { forward := false, boost := false }).stamina =
      if false then min (100 : ℚ) (50 + 10 * 1)
      else min (100 : ℚ) (min (100 : ℚ) (50 + 10 * 1) + 10 * 1) :=
  stamina_regen_amended 1000 { mkPlayerHorse 3 with stamina := 50 } false 1 rfl

/-- C3: the finished flag is a monotone latch.  Once `finished` is true, a step
leaves the whole core state (in particular `distanceTraveled` and `finished`)
unchanged for any intent and `dt`; while unfinished, a step sets `finished`
exactly when the post-step distance has reached `totalLength`. -/
theorem finish_latch (L : ℚ) (h : Horse) (i : InputState) (dt : ℚ) :
    (h.finished = true → h.update L dt i = h) ∧
    (h.finished = false →
      ((h.update L dt i).finished = true ↔ L ≤ (h.update L dt i).distance)) := by
  constructor
  · intro hf; unfold Horse.update; simp [hf]
  · intro hf
    unfold Horse.update
    rw [if_neg (by simp [hf])]
    unfold Horse.checkRaceCompletion
    split_ifs with hd
    · simpa using hd
    · simp only [updatePos_finished, handleInput_finished, hf, Bool.false_eq_true, false_iff]
      exact hd

/-- C3 witness: one concrete unfinished step, where the finish test matches the
reached distance. -/
theorem finish_latch_witness :
    ((mkPlayerHorse 3).update 1000 1 { forward := true, boost := false }).finished = true ↔
      (1000 : ℚ) ≤ ((mkPlayerHorse 3).update 1000 1 { forward := true, boost := false }).distance :=
  (finish_latch 1000 (mkPlayerHorse 3) { forward := true, boost := false } 1).2 rfl

/-- C4: `computePlacements` returns the entities (identity paired with
progress) as a permutation of the input, sorted in descending order of
progress, with places forming the contiguous sequence 1..N and place 1 holding
the maximum progress; and on the scenario progresses [1.02, 1.00, 0.95] it
returns places 1, 2, 3 in that order. -/
theorem placement_ranking :
    (∀ l : List ℚ,
      ((computePlacements l).map (fun e => (e.1, e.2.1))).Perm l.enum ∧
      ((computePlacements l).map (fun e => e.2.1)).Sorted (· ≥ ·) ∧
      (computePlacements l).map (fun e => e.2.2) = List.range' 1 l.length ∧
      (∀ e ∈ computePlacements l, e.2.2 = 1 → ∀ x ∈ computePlacements l, x.2.1 ≤ e.2.1)) ∧
    computePlacements [51/50, 1, 19/20] = [(0, 51/50, 1), (1, 1, 2), (2, 19/20, 3)] := by
  constructor
  · intro l
    set s := (l.enum).insertionSort progGE with hs
    have hperm : s.Perm l.enum := List.perm_insertionSort progGE l.enum
    have hsorted : List.Sorted progGE s := List.sorted_insertionSort progGE l.enum
    have hlen : s.length = l.length := by rw [hperm.length_eq, List.enum_length]
    have hm1 : (computePlacements l).map (fun e => (e.1, e.2.1)) = s := by
      simp only [computePlacements, List.map_map]
      have hcomp : ((fun (e : ℕ × ℚ × ℕ) => (e.1, e.2.1)) ∘
          (fun (e : ℕ × (ℕ × ℚ)) => (e.2.1, e.2.2, e.1 + 1))) = Prod.snd := by
        funext e; simp
      rw [hcomp, List.enum_map_snd]
    have hm2 : (computePlacements l).map (fun e => e.2.1) = s.map Prod.snd := by
      simp only [computePlacements, List.map_map]
      have hcomp : ((fun (x : ℕ × ℚ × ℕ) => x.2.1) ∘
          (fun (e : ℕ × (ℕ × ℚ)) => (e.2.1, e.2.2, e.1 + 1))) = (Prod.snd ∘ Prod.snd) := rfl
      rw [hcomp, ← List.map_map, List.enum_map_snd]
    have hm3 : (computePlacements l).map (fun e => e.2.2) =
        (List.range s.length).map (fun i => i + 1) := by
      simp only [computePlacements, List.map_map]
      have hcomp : ((fun (x : ℕ × ℚ × ℕ) => x.2.2) ∘
          (fun (e : ℕ × (ℕ × ℚ)) => (e.2.1, e.2.2, e.1 + 1))) = (fun i => i + 1) ∘ Prod.fst :=
        rfl
      rw [hcomp, ← List.map_map, List.enum_map_fst]
    refine ⟨hm1 ▸ hperm, ?_, ?_, ?_⟩
    · rw [hm2]
      exact List.Pairwise.map Prod.snd (fun a b hab => hab) hsorted
    · rw [hm3, hlen, List.range'_eq_map_range]
      exact List.map_congr_left fun i _ => by omega
    · intro e he h1 x hx
      simp only [computePlacements, List.mem_map] at he hx
      obtain ⟨⟨i, a⟩, hia, hea⟩ := he
      obtain ⟨⟨j, b⟩, hjb, hxb⟩ := hx
      rw [List.mk_mem_enum_iff_getElem?] at hia hjb
      have hi0 : i = 0 := by
        have : i + 1 = 1 := by rw [← hea] at h1; exact h1
        omega
      subst hi0
      obtain ⟨hilt, hival⟩ := List.getElem?_eq_some.mp hia
      obtain ⟨hjlt, hjval⟩ := List.getElem?_eq_some.mp hjb
      have hgoal : b.2 ≤ a.2 := by
        rcases Nat.eq_zero_or_pos j with hj0 | hjpos
        · subst hj0
          rw [hival] at hjval
          rw [hjval]
        · have hrel : progGE (s.get ⟨0, hilt⟩) (s.get ⟨j, hjlt⟩) :=
            List.Sorted.rel_get_of_lt hsorted (by exact hjpos)
          simp only [List.get_eq_getElem] at hrel
          rw [hival, hjval] at hrel
          exact hrel
      rw [← hea, ← hxb]
      exact hgoal
  · norm_num [computePlacements, List.insertionSort, List.orderedInsert, progGE, List.enum,
      List.enumFrom]

/-- C4 witness: on the scenario list the places are exactly 1..3 and the
place-1 progress dominates the place-3 progress. -/
theorem placement_ranking_witness :
    (computePlacements [51/50, 1, 19/20]).map (fun e => e.2.2) =
        List.range' 1 ([51/50, 1, 19/20] : List ℚ).length ∧
      (19/20 : ℚ) ≤ 51/50 := by
  refine ⟨(placement_ranking.1 [51/50, 1, 19/20]).2.2.1, ?_⟩
  have h4 := (placement_ranking.1 [51/50, 1, 19/20]).2.2.2
  have hmem1 : ((0 : ℕ), (51/50 : ℚ), (1 : ℕ)) ∈ computePlacements [51/50, 1, 19/20] := by
    rw [placement_ranking.2]; simp
  have hmem2 : ((2 : ℕ), (19/20 : ℚ), (3 : ℕ)) ∈ computePlacements [51/50, 1, 19/20] := by
    rw [placement_ranking.2]; simp
  exact h4 (0, 51/50, 1) hmem1 rfl (2, 19/20, 3) hmem2

/-- C5 counterexample: constructing the track on a 1000x1000 canvas and then
resizing to 2000x2000 leaves `totalLength` at the construction value
(Ramanujan on centerline radii 340 and 290) while the formula on the current
post-resize radii gives the strictly larger Ramanujan value on 740 and 640, so
the claimed invariant `totalLength = Ramanujan(current radii)` fails after
`handleResize` in src/public/track.js. -/
theorem track_resize_stale_length_counterexample :
    ((mkTrack 1000 1000).handleResize 2000 2000).totalLength ≠
      ramanujanLength
        ((((mkTrack 1000 1000).handleResize 2000 2000).outerRadiusX
            - ((mkTrack 1000 1000).handleResize 2000 2000).trackWidth / 2 : ℚ) : ℝ)
        ((((mkTrack 1000 1000).handleResize 2000 2000).outerRadiusY
            - ((mkTrack 1000 1000).handleResize 2000 2000).trackWidth / 2 : ℚ) : ℝ) := by
  have e1 : ((mkTrack 1000 1000).handleResize 2000 2000).totalLength
      = ramanujanLength 340 290 := by
    show ramanujanLength ((1000 * (2/5) - 120/2 : ℚ) : ℝ) ((1000 * (7/20) - 120/2 : ℚ) : ℝ)
      = ramanujanLength 340 290
    norm_num
  have e2 : ((((mkTrack 1000 1000).handleResize 2000 2000).outerRadiusX
      - ((mkTrack 1000 1000).handleResize 2000 2000).trackWidth / 2 : ℚ) : ℝ) = 740 := by
    show (((2000 * (2/5) : ℚ) - (120:ℚ) / 2 : ℚ) : ℝ) = 740
    norm_num
  have e3 : ((((mkTrack 1000 1000).handleResize 2000 2000).outerRadiusY
      - ((mkTrack 1000 1000).handleResize 2000 2000).trackWidth / 2 : ℚ) : ℝ) = 640 := by
    show (((2000 * (7/20) : ℚ) - (120:ℚ) / 2 : ℚ) : ℝ) = 640
    norm_num
  rw [e1, e2, e3]
  have hu := (ramanujanLength_bounds 340 290 (by norm_num) (by norm_num)).2
  have hl := (ramanujanLength_bounds 740 640 (by norm_num) (by norm_num)).1
  have hpi := Real.pi_pos
  intro heq
  rw [heq] at hu
  nlinarith

/-- C5 amended: after construction the radius invariant
`innerRadius = outerRadius - trackWidth` holds on both axes and `totalLength`
equals the Ramanujan formula on the construction centerline radii (positive,
hence `totalLength > 0`, whenever both centerline radii are positive).  After
`handleResize` in src/public/track.js the radius invariant still holds but
`totalLength` is NOT recomputed: it keeps its construction value.  The retro
variant of `handleResize` does recompute `totalLength` from the new radii
within the same call. -/
theorem track_geometry_invariant_amended :
    (∀ w h : ℚ,
      (mkTrack w h).innerRadiusX = (mkTrack w h).outerRadiusX - (mkTrack w h).trackWidth ∧
      (mkTrack w h).innerRadiusY = (mkTrack w h).outerRadiusY - (mkTrack w h).trackWidth ∧
      (mkTrack w h).totalLength =
        ramanujanLength
          (((mkTrack w h).outerRadiusX - (mkTrack w h).trackWidth / 2 : ℚ) : ℝ)
          (((mkTrack w h).outerRadiusY - (mkTrack w h).trackWidth / 2 : ℚ) : ℝ)) ∧
    (∀ w h : ℚ, (0:ℚ) < w * (2/5) - 60 → (0:ℚ) < h * (7/20) - 60 →
      0 < (mkTrack w h).totalLength) ∧
    (∀ (t : Track) (w h : ℚ),
      (t.handleResize w h).innerRadiusX
          = (t.handleResize w h).outerRadiusX - (t.handleResize w h).trackWidth ∧
      (t.handleResize w h).innerRadiusY
          = (t.handleResize w h).outerRadiusY - (t.handleResize w h).trackWidth ∧
      (t.handleResize w h).totalLength = t.totalLength) ∧
    (∀ (t : Track) (w h : ℚ),
      (trackRetroHandleResize t w h).innerRadiusX
          = (trackRetroHandleResize t w h).outerRadiusX
            - (trackRetroHandleResize t w h).trackWidth ∧
      (trackRetroHandleResize t w h).totalLength =
        ramanujanLength
          (((trackRetroHandleResize t w h).outerRadiusX
              - (trackRetroHandleResize t w h).trackWidth / 2 : ℚ) : ℝ)
          (((trackRetroHandleResize t w h).outerRadiusY
              - (trackRetroHandleResize t w h).trackWidth / 2 : ℚ) : ℝ)) := by
  refine ⟨fun w h => ⟨rfl, rfl, ?_⟩, fun w h hw hh => ?_, fun t w h => ⟨rfl, rfl, rfl⟩,
    fun t w h => ⟨rfl, rfl⟩⟩
  · show ramanujanLength ((w * (2/5) - 120/2 : ℚ) : ℝ) ((h * (7/20) - 120/2 : ℚ) : ℝ) = _
    norm_num [mkTrack]
  · show (0:ℝ) < ramanujanLength ((w * (2/5) - 120/2 : ℚ) : ℝ) ((h * (7/20) - 120/2 : ℚ) : ℝ)
    apply ramanujanLength_pos
    · exact_mod_cast (by linarith : (0:ℚ) < w * (2/5) - 120/2)
    · exact_mod_cast (by linarith : (0:ℚ) < h * (7/20) - 120/2)

/-- C5 amended witness: concrete 1000x1000 construction and a 2000x2000
resize. -/
theorem track_geometry_invariant_amended_witness :
    (mkTrack 1000 1000).innerRadiusX
        = (mkTrack 1000 1000).outerRadiusX - (mkTrack 1000 1000).trackWidth ∧
      0 < (mkTrack 1000 1000).totalLength ∧
      ((mkTrack 1000 1000).handleResize 2000 2000).totalLength = (mkTrack 1000 1000).totalLength :=
  ⟨(track_geometry_invariant_amended.1 1000 1000).1,
    track_geometry_invariant_amended.2.1 1000 1000 (by norm_num) (by norm_num),
    (track_geometry_invariant_amended.2.2.1 (mkTrack 1000 1000) 2000 2000).2.2⟩

/-- C6 counterexample: at `totalLength = 0` and distance 5, both the progress
division and the distance-to-angle division yield a non-finite value (modelled
`none`), not zero progress: there is no guard in the source. -/
theorem zero_track_length_guard_counterexample :
    trackProgress 5 0 = none ∧ normalizedDistance 5 0 = none ∧
      trackProgress 5 0 ≠ some 0 := by
  refine ⟨rfl, rfl, ?_⟩
  simp [trackProgress, jsDiv]

/-- C6 amended: the divisions by track length are unguarded.  When
`totalLength = 0` both `trackProgress` and the `normalizedDistance` conversion
inside `getTrackPosition` produce a non-finite value (modelled `none`) rather
than zero progress; when `totalLength` is non-zero they produce the finite
quotients. -/
theorem zero_track_length_division_amended :
    (∀ d : ℚ, trackProgress d 0 = none ∧ normalizedDistance d 0 = none) ∧
    (∀ d L : ℚ, L ≠ 0 → trackProgress d L = some (d / L) ∧
      normalizedDistance d L = some ((d - L * (jsTrunc (d / L) : ℚ)) / L)) := by
  constructor
  · intro d; exact ⟨rfl, rfl⟩
  · intro d L hL
    constructor
    · simp [trackProgress, jsDiv, hL]
    · simp [normalizedDistance, jsMod, jsDiv, hL]

/-- C6 amended witness: at `totalLength = 2`, distance 5 gives the finite
progress 5/2. -/
theorem zero_track_length_division_amended_witness :
    trackProgress 5 2 = some (5 / 2) ∧
      normalizedDistance 5 2 = some ((5 - 2 * (jsTrunc (5 / 2) : ℚ)) / 2) :=
  zero_track_length_division_amended.2 5 2 (by norm_num)

/-- C7 counterexample: the `PlayerHorse` constructor accepts an invalid lane
(-1) without any assertion or rejection, and the race setup itself creates AI
horses in lanes [1, 2, 4, 5, 6], where lane 6 is not below the lane count 6 of
the constructed track — so not every racer that exists satisfies
`0 <= lane < laneCount`. -/
theorem lane_validation_counterexample :
    (mkPlayerHorse (-1)).laneNumber = -1 ∧
    aiLanes 5 = [1, 2, 4, 5, 6] ∧
    ¬ (∀ lane ∈ aiLanes 5, lane < (mkTrack 1000 1000).laneCount) := by
  refine ⟨rfl, rfl, ?_⟩
  intro hall
  exact absurd (hall 6 (by decide)) (by decide)

/-- C7 amended: no construction-time lane validation exists (the constructor
stores any lane verbatim); the race setup assigns the five AI horses the lanes
[1, 2, 4, 5, 6] (skipping the player lane 3).  All of these except the last
are below the lane count 6; the fifth AI horse occupies lane 6, which is
outside the valid range 0..5. -/
theorem lane_assignment_amended :
    (∀ z : ℤ, (mkPlayerHorse z).laneNumber = z) ∧
    aiLanes 5 = [1, 2, 4, 5, 6] ∧
    (∀ lane ∈ aiLanes 5, lane ≠ 6 → lane < (mkTrack 1000 1000).laneCount) ∧
    ¬ (6 < (mkTrack 1000 1000).laneCount) := by
  refine ⟨fun z => rfl, rfl, ?_, by decide⟩
  intro lane hmem hne
  fin_cases hmem <;> revert hne <;> decide

/-- C7 amended witness: the constructor stores lane -7 verbatim, and AI lane 1
is below the lane count. -/
theorem lane_assignment_amended_witness :
    (mkPlayerHorse (-7)).laneNumber = -7 ∧ (1 : ℕ) < (mkTrack 1000 1000).laneCount :=
  ⟨lane_assignment_amended.1 (-7), lane_assignment_amended.2.2.1 1 (by decide) (by decide)⟩

/-- C8 counterexample: at distance 0 in lane 3 of the 1000x1000 track the
returned heading is pi/2 (the parametric angle), while the tangent vector of
the parametric oval at that point is (-340, 0); no positive multiple of
(cos(pi/2), sin(pi/2)) = (0, 1) equals it, so the returned heading is not the
tangent angle of the oval. -/
theorem heading_tangent_counterexample :
    ¬ specHeadingIsTangentAngle (mkTrack 1000 1000) 0 3 := by
  rintro ⟨r, hr, heq⟩
  rw [getTrackPosition_angle_zero] at heq
  have h1 := congrArg Prod.fst heq
  simp only [tangentVector, Real.sin_pi_div_two, Real.cos_pi_div_two, mul_one, mul_zero] at h1
  have hrx : ((mkTrack 1000 1000).innerRadiusX : ℝ)
      + ((3:ℤ) : ℝ) * ((mkTrack 1000 1000).laneSpacing : ℝ) = 340 := by
    norm_num [mkTrack]
  rw [hrx] at h1
  norm_num at h1

/-- C8 amended: the heading returned by `getTrackPosition` is the parametric
angle of the oval, not its tangent angle.  In the circular case (equal axis
radii, any common lane radius `r`) the tangent vector at the returned heading
equals `r` times the direction of heading + pi/2 — exactly the quarter-turn
offset the renderer adds before drawing. -/
theorem heading_tangent_amended (t : Track) (d : ℝ) (lane : ℤ) (r : ℝ) :
    tangentVector r r ((t.getTrackPosition d lane).2.2) =
      (r * Real.cos ((t.getTrackPosition d lane).2.2 + Real.pi / 2),
       r * Real.sin ((t.getTrackPosition d lane).2.2 + Real.pi / 2)) := by
  rw [Real.cos_add_pi_div_two, Real.sin_add_pi_div_two]
  simp [tangentVector]

/-- C9: a forward intent in the FINISHED state with the results view showing
resets the race completely — placement list emptied, results hidden, countdown
restored, every racer state back to initial values, every AI timer and
checkpoint flag cleared — moves to COUNTDOWN, and leaves every AI profile
constant unchanged. -/
theorem restart_full_reset (g : RaceGame) (f : Bool)
    (hs : g.gameState = GameState.finished) (hf : f = true) (hv : g.resultsVisible = true) :
    (g.updateFinishedState f).gameState = GameState.countdown ∧
    (g.updateFinishedState f).finalPlacements = [] ∧
    (g.updateFinishedState f).resultsVisible = false ∧
    (g.updateFinishedState f).countdownTimer = 3 ∧
    (g.updateFinishedState f).playerHorse.distance = 0 ∧
    (g.updateFinishedState f).playerHorse.speed = 0 ∧
    (g.updateFinishedState f).playerHorse.stamina = g.playerHorse.maxStamina ∧
    (g.updateFinishedState f).playerHorse.finished = false ∧
    (∀ a ∈ (g.updateFinishedState f).aiHorses,
      a.distance = 0 ∧ a.speed = 0 ∧ a.stamina = a.maxStamina ∧ a.finished = false ∧
      a.isBoosting = false ∧ a.boostTimer = 0 ∧ a.usedStrategicBoosts = (false, false)) ∧
    (g.updateFinishedState f).aiHorses.map AIHorse.profile = g.aiHorses.map AIHorse.profile := by
  have hcond : g.updateFinishedState f = { g.reset with gameState := GameState.countdown } := by
    unfold RaceGame.updateFinishedState
    rw [if_pos ⟨by simp [hf], by simp [hv]⟩]
  rw [hcond]
  refine ⟨rfl, rfl, rfl, rfl, rfl, rfl, rfl, rfl, ?_, ?_⟩
  · intro a ha
    simp only [RaceGame.reset, List.mem_map] at ha
    obtain ⟨b, _, hb⟩ := ha
    subst hb
    simp [AIHorse.reset, Horse.resetState]
  · simp [RaceGame.reset, List.map_map]
    intro a _
    simp [AIHorse.profile, AIHorse.reset, Horse.resetState]

/-- C9 witness: the restart applied to a concrete finished game with one AI
horse mid-state. -/
theorem restart_full_reset_witness :
    (sampleFinishedGame.updateFinishedState true).gameState = GameState.countdown ∧
      (sampleFinishedGame.updateFinishedState true).finalPlacements = [] ∧
      (sampleFinishedGame.updateFinishedState true).aiHorses.map AIHorse.profile =
        sampleFinishedGame.aiHorses.map AIHorse.profile := by
  have hr := restart_full_reset sampleFinishedGame true rfl rfl rfl
  exact ⟨hr.1, hr.2.1, hr.2.2.2.2.2.2.2.2.2⟩

/-- C10: once a racer is finished, `update` is a complete no-op on the full
racer state — speed, stamina, distance, finished, and the rendering fields
`x`, `y`, `angle` are all left unchanged for any intent and `dt`; in
particular a finished racer does not regenerate stamina. -/
theorem finished_update_noop (t : Track) (h : HorseFull) (dt : ℚ) (i : InputState)
    (hf : h.finished = true) : h.update t dt i = h := by
  unfold HorseFull.update
  simp [hf]

/-- C10 witness: the no-op on a concrete finished racer. -/
theorem finished_update_noop_witness :
    sampleFinishedHorseFull.update (mkTrack 1000 1000) 1 { forward := true, boost := true } =
      sampleFinishedHorseFull :=
  finished_update_noop (mkTrack 1000 1000) sampleFinishedHorseFull 1
    { forward := true, boost := true } rfl

end HorseRacing
